import Mathlib

set_option maxRecDepth 100000

/-!
Shallow embedding of the RAG knowledge-base service (`main.py` + `utils.py`).

External collaborators (the hosted Gemini API, MongoDB, Google Cloud Storage)
are modelled as explicit environments: the catalog is a list of document rows,
the hosted file-handle lookup and the generation endpoint are function fields
of an `Env` record, and every operation returns — besides its value — the list
of hosted generation requests it issued and the resulting catalog, so that
claims about "which requests were sent" and "what was persisted" are statable.
Machine floats appear only as the fixed temperature 0.3, modelled as the
rational 3/10; timestamps are naturals.
-/

/-- A content part of a hosted generation request: either plain text or a
file-data part referencing a hosted file by URI (`types.ContentPart.from_uri`). -/
inductive ContentPart where
  | text (s : String)
  | fileData (file_uri : String) (mime_type : String)
  deriving Repr, DecidableEq

/-- Generation configuration (`types.GenerateContentConfig`): temperature,
max output tokens, and the file-search store names of the FileSearch tool. -/
structure GenConfig where
  temperature : ℚ
  max_output_tokens : Nat
  file_search_store_names : List String
  deriving Repr, DecidableEq

/-- One request to the hosted generation endpoint
(`client.models.generate_content`). -/
structure GenRequest where
  model : String
  contents : List ContentPart
  config : GenConfig
  deriving Repr, DecidableEq

/-- A live hosted file handle as returned by `client.files.get`:
a retrieval URI and an optional MIME type. -/
structure GeminiFileHandle where
  uri : String
  mime_type : Option String
  deriving Repr, DecidableEq

/-- Environment of hosted collaborators for the ask path.
`filesGet` models `client.files.get` (`none` = the call raises, e.g. the
48-hour expiry); `generate` models the text of the hosted response
(`none` = `response.text` is `None`). -/
structure Env where
  storeName : String
  modelId : String
  filesGet : String → Option GeminiFileHandle
  generate : GenRequest → Option String

/-- One catalog (MongoDB) document row.  `Option` fields model keys that may
be absent from a stored document (legacy records). -/
structure DocRow where
  _id : String
  original_filename : Option String
  display_name : Option String
  gcp_link : Option String
  gemini_file_name : Option String
  uploaded_at : Option Nat
  status : Option String
  deriving Repr, DecidableEq

/-- Fixed degradation answer returned by `_ask_with_file_refs` when zero file
parts could be gathered. -/
def noFilePartsMsg : String :=
  "The selected document(s) could not be retrieved from Gemini. They may be legacy docs (uploaded before this version) or may have expired (files expire after 48h). Please re-upload using /upload and use the new ID, or use /kb-ask without file_ids to search all documents."

/-- Fixed substitute answer when the hosted response text is empty on the
direct-reference path. -/
def emptyDirectAnswerMsg : String :=
  "The model could not extract a relevant answer from the selected document(s). Try rephrasing your question."

/-- Fixed substitute answer when the hosted response text is empty on the
global-search path. -/
def emptyGlobalAnswerMsg : String :=
  "I couldn\x27t find relevant information in the knowledge base. Please make sure documents have been uploaded and try rephrasing your question."

/-- Validity of a BSON ObjectId string: exactly 24 hexadecimal characters
(`bson.ObjectId(s)` raises otherwise). -/
def isValidObjectId (s : String) : Bool :=
  s.length == 24 && s.data.all (fun c => c.isDigit || ('a' ≤ c && c ≤ 'f') || ('A' ≤ c && c ≤ 'F'))

/-- Python `str.strip()` over the character list, structurally recursive so
that it evaluates inside the kernel (the built-in `String.trim` does not). -/
def pyStrip (s : String) : String :=
  ⟨(((s.data.dropWhile Char.isWhitespace).reverse).dropWhile Char.isWhitespace).reverse⟩

/-- Python `str.lower()` over the character list. -/
def pyLower (s : String) : String :=
  ⟨s.data.map Char.toLower⟩

/-- One step of splitting on a non-empty separator; the fuel is an upper bound
on the number of characters consumed, making the recursion structural. -/
def pySplitAux (sep : List Char) : List Char → List Char → Nat → List (List Char)
  | _, acc, 0 => [acc.reverse]
  | [], acc, _ + 1 => [acc.reverse]
  | c :: rest, acc, fuel + 1 =>
    if sep.isPrefixOf (c :: rest) then
      acc.reverse :: pySplitAux sep ((c :: rest).drop sep.length) [] fuel
    else
      pySplitAux sep rest (c :: acc) fuel

/-- Python `s.split(sep)` for a non-empty separator. -/
def pySplit (s sep : String) : List String :=
  (pySplitAux sep.data s.data [] (s.data.length + 1)).map (fun l => ⟨l⟩)

/-- ObjectId comparison against a stored id: `ObjectId` normalises hex case and
stored ids stringify to lowercase hex, so a caller-supplied id matches a row
when its lowercase form equals the stored id. -/
def objIdMatches (fid : String) (docId : String) : Bool :=
  pyLower fid == docId

/-- `(response.text or "").strip()`. -/
def stripOrEmpty (o : Option String) : String :=
  pyStrip (o.getD "")

/-- The attachment attempt of `_ask_with_file_refs` for one resolved record:
skip when `gemini_file_name` is missing or falsy, skip when `client.files.get`
raises, otherwise build a file-data part from the live handle
(`gemini_file.mime_type or "application/octet-stream"`). -/
def filePartForDoc (env : Env) (d : DocRow) : Option ContentPart :=
  match d.gemini_file_name with
  | none => none
  | some nm =>
    if nm = "" then none
    else
      match env.filesGet nm with
      | none => none
      | some h =>
        let m := match h.mime_type with
          | none => "application/octet-stream"
          | some s => if s = "" then "application/octet-stream" else s
        some (ContentPart.fileData h.uri m)

/-- The file parts gathered by the loop of `_ask_with_file_refs`. -/
def fileParts (env : Env) (docs : List DocRow) : List ContentPart :=
  docs.filterMap (filePartForDoc env)

/-- The temperature 0.3 of every hosted generation request, as the rational
3/10 in normal form (so that equality on requests stays kernel-decidable). -/
def tempPointThree : ℚ := ⟨3, 10, by decide, by decide⟩

/-- The generation configuration used by both `_ask_with_file_refs` and
`_ask_global`: temperature 0.3, max 1500 output tokens, FileSearch tool over
the active store. -/
def groundedConfig (env : Env) : GenConfig :=
  { temperature := tempPointThree, max_output_tokens := 1500,
    file_search_store_names := [env.storeName] }

/-- Result of one strategy call: the answer string and the hosted generation
requests it issued. -/
structure AskResult where
  answer : String
  requests : List GenRequest
  deriving Repr, DecidableEq

/-- `_ask_with_file_refs`.  Gathers file parts from the resolved records with
per-record skipping; with zero parts, returns the fixed degradation string and
issues no hosted request.  Otherwise it issues one generation request whose
`contents` is the bare question string (the source assigns
`contents = question`; the line building `file_parts + [question]` is commented
out there, so the gathered parts are not attached). -/
def ask_with_file_refs (env : Env) (question : String) (docs : List DocRow) : AskResult :=
  let fps := fileParts env docs
  if fps = [] then
    { answer := noFilePartsMsg, requests := [] }
  else
    let req : GenRequest :=
      { model := env.modelId, contents := [ContentPart.text question], config := groundedConfig env }
    let ans := stripOrEmpty (env.generate req)
    { answer := if ans = "" then emptyDirectAnswerMsg else ans, requests := [req] }

/-- `_ask_global`: one generation request over the full store with no
per-file filter. -/
def ask_global (env : Env) (question : String) : AskResult :=
  let req : GenRequest :=
    { model := env.modelId, contents := [ContentPart.text question], config := groundedConfig env }
  let ans := stripOrEmpty (env.generate req)
  { answer := if ans = "" then emptyGlobalAnswerMsg else ans, requests := [req] }

/-- `_get_latest_upload`: the active record with a `gemini_file_name` key whose
`uploaded_at` is maximal (sort descending, limit 1); earlier rows win ties. -/
def get_latest_upload (st : List DocRow) : Option DocRow :=
  (st.filter (fun d => d.status == some "active" && d.gemini_file_name.isSome)).foldl
    (fun acc d =>
      match acc with
      | none => some d
      | some b => if (b.uploaded_at.getD 0) < (d.uploaded_at.getD 0) then some d else some b)
    none

/-- Error raised locally by `ask_question_to_knowledge_base`
(`ValueError("Invalid file_id format: ...")`). -/
inductive AskErr where
  | invalidFileId
  deriving Repr, DecidableEq

/-- Outcome of `ask_question_to_knowledge_base` as a plain sum: either an
answer or the local validation error. -/
inductive AskRes where
  | ok (answer : String)
  | err (e : AskErr)
  deriving Repr, DecidableEq

/-- `ask_question_to_knowledge_base` and the requests it issues.  Python
truthiness: a `None` or empty list falls through to the next case.  CASE 1
converts every id through `ObjectId` (raising on the first malformed id,
before any hosted call) and resolves `{"_id": {"$in": ids}}` with no status
filter; CASE 2 resolves `{"gcp_link": {"$in": urls}}`; CASE 3 is global
search; CASE 4 defaults to the latest upload, or global search on an empty
catalog. -/
def ask_question_to_knowledge_base (env : Env) (st : List DocRow) (question : String)
    (file_ids : Option (List String)) (file_urls : Option (List String))
    (search_all : Bool) : AskRes × List GenRequest :=
  match file_ids with
  | some (fid :: rest) =>
    let ids := fid :: rest
    if ids.all isValidObjectId then
      let docs := st.filter (fun d => ids.any (fun i => objIdMatches i d._id))
      let r := ask_with_file_refs env question docs
      (.ok r.answer, r.requests)
    else
      (.err .invalidFileId, [])
  | _ =>
    match file_urls with
    | some (u :: rest) =>
      let urls := u :: rest
      let docs := st.filter (fun d =>
        match d.gcp_link with
        | some g => urls.contains g
        | none => false)
      let r := ask_with_file_refs env question docs
      (.ok r.answer, r.requests)
    | _ =>
      if search_all then
        let r := ask_global env question
        (.ok r.answer, r.requests)
      else
        match get_latest_upload st with
        | some d =>
          let r := ask_with_file_refs env question [d]
          (.ok r.answer, r.requests)
        | none =>
          let r := ask_global env question
          (.ok r.answer, r.requests)

/-- Projection of a catalog row returned by `list_knowledge_base_files`
(Mongo projection on `_id, original_filename, display_name, uploaded_at,
gcp_link`; `_id` renamed to `id`). -/
structure ListedDoc where
  id : String
  original_filename : Option String
  display_name : Option String
  uploaded_at : Option Nat
  gcp_link : Option String
  deriving Repr, DecidableEq

/-- The Mongo projection applied to each row by `list_knowledge_base_files`. -/
def listedOf (d : DocRow) : ListedDoc :=
  { id := d._id, original_filename := d.original_filename,
    display_name := d.display_name, uploaded_at := d.uploaded_at,
    gcp_link := d.gcp_link }

/-- `list_knowledge_base_files`: all rows with `status = "active"`, projected. -/
def list_knowledge_base_files (st : List DocRow) : List ListedDoc :=
  (st.filter (fun d => d.status == some "active")).map listedOf

/-- Response row of `GET /list` (`FileInfo` pydantic model): the three
required fields are non-optional, `gcp_link` stays optional. -/
structure FileInfo where
  id : String
  original_filename : String
  display_name : String
  gcp_link : Option String
  uploaded_at : Nat
  uploaded_at_human : Option String
  deriving Repr, DecidableEq

/-- Stands in for `datetime.utcfromtimestamp(t).strftime(...)` — the exact
calendar rendering lives in an external library; only presence matters to the
listing logic. -/
def formatUtcTimestamp (t : Nat) : String :=
  "utc:" ++ toString t

/-- The per-row fix-up loop of the `list_files` endpoint: human timestamp when
`uploaded_at` is present and truthy; falsy `original_filename` replaced by
"unknown"; falsy `display_name` replaced by the (already fixed)
`original_filename`; falsy `uploaded_at` replaced by 0. -/
def format_file (f : ListedDoc) : FileInfo :=
  let human : Option String :=
    match f.uploaded_at with
    | some t => if t ≠ 0 then some (formatUtcTimestamp t) else none
    | none => none
  let ofn := match f.original_filename with
    | none => "unknown"
    | some s => if s = "" then "unknown" else s
  let dn := match f.display_name with
    | none => ofn
    | some s => if s = "" then ofn else s
  let ua := match f.uploaded_at with
    | none => 0
    | some t => t
  { id := f.id, original_filename := ofn, display_name := dn,
    gcp_link := f.gcp_link, uploaded_at := ua, uploaded_at_human := human }

/-- `GET /list`: list the active catalog rows and apply the fix-up loop. -/
def list_files (st : List DocRow) : List FileInfo :=
  (list_knowledge_base_files st).map format_file

/-- Environment of `delete_document_from_knowledge_base`: the bucket name used
to derive the blob key, and flags saying whether the two best-effort external
deletes raise.  Both attempts sit inside `try/except` blocks that only log, so
the outcome may not depend on the flags — that independence is proved below. -/
structure DeleteEnv where
  bucketName : String
  geminiDeleteOk : Bool
  gcsDeleteOk : Bool

/-- Outcome of a delete: reported success, the catalog afterwards, and the
external deletions that were attempted (attempted even when they fail). -/
structure DeleteOutcome where
  success : Bool
  catalog : List DocRow
  geminiDeletesAttempted : List String
  blobDeletesAttempted : List String
  deriving Repr, DecidableEq

/-- Resolution step of the delete: `ObjectId(input)` succeeds → find by `_id`;
raises (malformed) → find by `original_filename`. -/
def findDeleteTarget (st : List DocRow) (input : String) : Option DocRow :=
  if isValidObjectId input then
    st.find? (fun d => objIdMatches input d._id)
  else
    st.find? (fun d => d.original_filename == some input)

/-- `delete_document_from_knowledge_base`.  Not found → `false`.  Found →
attempt the hosted-file delete when the `gemini_file_name` key is present and
the blob delete when the `gcp_link` key is present (each in its own
`try/except`, so failures only log), then always delete the catalog row
(`delete_one` removes the first row with that `_id`) and return `true`. -/
def delete_document_from_knowledge_base (env : DeleteEnv) (st : List DocRow)
    (input : String) : DeleteOutcome :=
  match findDeleteTarget st input with
  | none =>
    { success := false, catalog := st,
      geminiDeletesAttempted := [], blobDeletesAttempted := [] }
  | some d =>
    let g := match d.gemini_file_name with
      | some nm => [nm]
      | none => []
    let b := match d.gcp_link with
      | some link => [(pySplit link (env.bucketName ++ "/")).getLastD ""]
      | none => []
    { success := true,
      catalog := st.eraseP (fun x => x._id == d._id),
      geminiDeletesAttempted := g, blobDeletesAttempted := b }

/-- Environment of the ingest pipeline (`upload_document_to_knowledge_base`):
the clock, whether the blob upload and the hosted file upload succeed, the
hosted file name assigned by `client.files.upload`, whether
`upload_to_file_search_store` raises, the done-flag of the import operation
after `k` refreshes (`opDoneAt 0` is the state returned by the initial call),
the Mongo-assigned id, and the bucket name. -/
structure UploadEnv where
  now : Nat
  blobUploadOk : Bool
  filesUploadOk : Bool
  geminiFileName : String
  importRaises : Bool
  opDoneAt : Nat → Bool
  newId : String
  bucketName : String

/-- The bounded poll loop of step 3 of the ingest pipeline, returning the total
seconds waited.  The source loop runs `while not op.done`, sleeps 2 seconds,
refreshes the operation, and breaks once `waited >= 60`; since `waited` grows
by 2 each iteration from 0, the loop body runs at most 30 times, so fuel 30
makes the fuel-exhaustion branch unreachable and the translation total. -/
def poll_import_loop (opDoneAt : Nat → Bool) (i waited fuel : Nat) : Nat :=
  match fuel with
  | 0 => waited
  | Nat.succ f =>
    if opDoneAt i then waited
    else
      let w := waited + 2
      if 60 ≤ w then w
      else poll_import_loop opDoneAt (i + 1) w f

/-- Seconds waited by the import poll (`max_wait = 60`, 2-second sleep). -/
def poll_import (opDoneAt : Nat → Bool) : Nat :=
  poll_import_loop opDoneAt 0 0 30

/-- Outcome of the ingest pipeline: whether it completed (a raise on a fatal
step gives `ok = false`), the catalog afterwards, the returned id and blob
URL, the seconds the import poll waited (`none` when the store import raised),
and the blob uploads attempted. -/
structure UploadOutcome where
  ok : Bool
  catalog : List DocRow
  result_id : String
  result_gcp_link : String
  importWaitedSeconds : Option Nat
  blobUploadsAttempted : List String
  deriving Repr, DecidableEq

/-- `if not display_name: display_name = original_filename` (Python falsiness:
a missing or empty display name falls back to the original filename). -/
def displayNameOrDefault (display_name : Option String) (original_filename : String) : String :=
  match display_name with
  | none => original_filename
  | some s => if s = "" then original_filename else s

/-- `upload_document_to_knowledge_base`: blob upload (fatal on failure), hosted
file upload (fatal on failure), store import with bounded polling wrapped in
`try/except` (non-fatal: a raise or a timeout only logs), then the
unconditional catalog insert and the result dict.  The MIME-type guess feeds
only the config of the hosted upload and is not otherwise observable, so it is
not modelled. -/
def upload_document_to_knowledge_base (env : UploadEnv) (st : List DocRow)
    (original_filename : String) (display_name : Option String) : UploadOutcome :=
  let dn := displayNameOrDefault display_name original_filename
  let blob_name := "kb/" ++ toString env.now ++ "_" ++ original_filename
  if !env.blobUploadOk then
    { ok := false, catalog := st, result_id := "", result_gcp_link := "",
      importWaitedSeconds := none, blobUploadsAttempted := [blob_name] }
  else
    let gcp_link := "https://storage.googleapis.com/" ++ env.bucketName ++ "/" ++ blob_name
    if !env.filesUploadOk then
      { ok := false, catalog := st, result_id := "", result_gcp_link := "",
        importWaitedSeconds := none, blobUploadsAttempted := [blob_name] }
    else
      let waited := if env.importRaises then none else some (poll_import env.opDoneAt)
      let row : DocRow :=
        { _id := env.newId, original_filename := some original_filename,
          display_name := some dn, gcp_link := some gcp_link,
          gemini_file_name := some env.geminiFileName,
          uploaded_at := some env.now, status := some "active" }
      { ok := true, catalog := st ++ [row], result_id := env.newId,
        result_gcp_link := gcp_link, importWaitedSeconds := waited,
        blobUploadsAttempted := [blob_name] }

/-- HTTP-level result of an ask endpoint: the `AskResponse` body or an
`HTTPException`. -/
inductive HttpResult where
  | ok (question answer : String) (selected_documents_count : Nat)
  | httpError (status : Nat) (detail : String)
  deriving Repr, DecidableEq

/-- A chat-history entry (History/Chat Recorder data model). -/
structure ChatTurn where
  id : String
  question : String
  answer : String
  source : String
  conversation_id : Option String
  chat_id : Option String
  asked_at : Nat
  deriving Repr, DecidableEq

/-- Observable outcome of an HTTP ask endpoint: the response, the hosted
generation requests issued, the catalog and blob writes performed, and the
history entries persisted during the call. -/
structure EndpointOutcome where
  response : HttpResult
  requests : List GenRequest
  catalog : List DocRow
  blobWrites : List String
  historyWrites : List ChatTurn
  deriving Repr, DecidableEq

/-- Comma-separated form-field parsing in `kb_ask`:
`[i.strip() for i in s.split(",") if i.strip()]`. -/
def splitParam (s : String) : List String :=
  ((pySplit s ",").map pyStrip).filter (fun x => x ≠ "")

/-- `POST /kb-ask`.  Empty/whitespace question → 400 before anything else.
`file_ids` equal (trimmed, case-insensitively) to "all" sets the global flag
and suppresses id parsing; the two comma-separated fields are parsed with
Python truthiness (an empty string field stays `None`).  Any exception from
the resolver — including the malformed-id `ValueError` — is mapped to a 500
"RAG query failed" error.  The reported count: catalog size when the global
flag is set, else the number of ids, else the number of urls, else 1.  No
history entry is written anywhere on this path. -/
def kb_ask (env : Env) (st : List DocRow) (question : String)
    (file_ids file_urls : Option String) : EndpointOutcome :=
  if pyStrip question = "" then
    { response := .httpError 400 "Question cannot be empty", requests := [],
      catalog := st, blobWrites := [], historyWrites := [] }
  else
    let search_all := match file_ids with
      | some s => s ≠ "" && pyLower (pyStrip s) == "all"
      | none => false
    let ids_list : Option (List String) := match file_ids with
      | some s => if s ≠ "" && !search_all then some (splitParam s) else none
      | none => none
    let urls_list : Option (List String) := match file_urls with
      | some s => if s ≠ "" then some (splitParam s) else none
      | none => none
    let o := ask_question_to_knowledge_base env st question ids_list urls_list search_all
    match o.1 with
    | .err _ =>
      { response := .httpError 500 "RAG query failed: Invalid file_id format",
        requests := o.2, catalog := st, blobWrites := [], historyWrites := [] }
    | .ok ans =>
      let count := if search_all then (list_knowledge_base_files st).length
        else match ids_list with
          | some (x :: xs) => (x :: xs).length
          | _ => match urls_list with
            | some (y :: ys) => (y :: ys).length
            | _ => 1
      { response := .ok question ans count, requests := o.2, catalog := st,
        blobWrites := [], historyWrites := [] }

/-- The parameter names of `ask_question_to_knowledge_base` as defined in the
utilities module: `(question, file_ids=None, file_urls=None, search_all=False)`
— no `source` parameter and no `**kwargs`. -/
def ask_question_param_names : List String :=
  ["question", "file_ids", "file_urls", "search_all"]

/-- The keyword arguments of the call
`ask_question_to_knowledge_base(question, file_ids=[uploaded_id], source="upload-and-ask")`
in the upload-and-ask endpoint (`question` is passed positionally). -/
def upload_and_ask_call_kwargs : List String :=
  ["file_ids", "source"]

/-- A Python call binds successfully only when every keyword argument names a
parameter of the callee (no `**kwargs` catch-all here); otherwise it raises
`TypeError` at the call site. -/
def kwargs_accepted (sig kwargs : List String) : Bool :=
  kwargs.all (fun k => sig.contains k)

/-- `POST /upload-and-ask`.  Empty/whitespace question → 400 before anything
else.  Then the ingest runs (its failure → 500 with no ask).  Then the source
calls the resolver with the keyword argument `source`, which the signature of
the resolver does not accept, so the call raises `TypeError`, caught by the
generic `except Exception` of the endpoint and mapped to a 500 "RAG query failed" error;
the success branch building the count-1 response is unreachable. -/
def upload_and_ask (env : Env) (uenv : UploadEnv) (st : List DocRow)
    (question : String) (filename : String) : EndpointOutcome :=
  if pyStrip question = "" then
    { response := .httpError 400 "Question cannot be empty", requests := [],
      catalog := st, blobWrites := [], historyWrites := [] }
  else
    let u := upload_document_to_knowledge_base uenv st filename (some filename)
    if !u.ok then
      { response := .httpError 500 ("Upload failed for " ++ filename),
        requests := [], catalog := u.catalog,
        blobWrites := u.blobUploadsAttempted, historyWrites := [] }
    else
      if kwargs_accepted ask_question_param_names upload_and_ask_call_kwargs then
        let o := ask_question_to_knowledge_base env u.catalog question
          (some [u.result_id]) none false
        match o.1 with
        | .ok ans =>
          { response := .ok question ans 1, requests := o.2, catalog := u.catalog,
            blobWrites := u.blobUploadsAttempted, historyWrites := [] }
        | .err _ =>
          { response := .httpError 500 "RAG query failed: Invalid file_id format",
            requests := o.2, catalog := u.catalog,
            blobWrites := u.blobUploadsAttempted, historyWrites := [] }
      else
        { response := .httpError 500 "RAG query failed: ask_question_to_knowledge_base() got an unexpected keyword argument \x27source\x27",
          requests := [], catalog := u.catalog,
          blobWrites := u.blobUploadsAttempted, historyWrites := [] }

/-- Modelled from the spec: the function `save_chat_turn` is imported by the
HTTP layer from the utilities module but is missing from the source files;
per the spec the History/Chat Recorder is "append-only logging of Q&A and chat
turns ... simple CRUD" — saving a chat turn appends one immutable entry with
the given fields and returns the new entry id. -/
def save_chat_turn (log : List ChatTurn) (question answer source : String)
    (conversation_id chat_id : Option String) (now : Nat) (newId : String) :
    List ChatTurn × String :=
  (log ++ [{ id := newId, question := question, answer := answer,
             source := source, conversation_id := conversation_id,
             chat_id := chat_id, asked_at := now }], newId)

/-- HTTP-level result of `POST /save-chat-turn`. -/
inductive ChatTurnResponse where
  | saved (id : String)
  | httpError (status : Nat) (detail : String)
  deriving Repr, DecidableEq

/-- `POST /save-chat-turn`: performs no validation of the question (the source
endpoint only wraps the recorder call in a generic `except → 500`) and returns
the saved id with the grown log. -/
def save_chat_turn_endpoint (log : List ChatTurn) (question answer source : String)
    (conversation_id chat_id : Option String) (now : Nat) (newId : String) :
    ChatTurnResponse × List ChatTurn :=
  let r := save_chat_turn log question answer source conversation_id chat_id now newId
  (.saved r.2, r.1)

/-- Every top-level name bound in the utilities module source (imports,
module-level assignments, and function definitions). -/
def utils_defined_names : List String :=
  ["os", "time", "shutil", "mimetypes", "Optional", "Dict", "Any", "List",
   "load_dotenv", "genai", "types", "MongoClient", "ServerApi", "storage",
   "ObjectId", "GEMINI_API_KEY", "client", "STORE_NAME", "MODEL_ID",
   "MONGO_URI", "mongo_client", "db", "kb_collection", "GCP_PROJECT",
   "GCP_BUCKET_NAME", "storage_client", "create_bucket_if_not_exists",
   "upload_to_gcs", "ensure_file_search_store_exists",
   "upload_document_to_knowledge_base", "list_knowledge_base_files",
   "delete_document_from_knowledge_base", "ask_question_to_knowledge_base",
   "_get_latest_upload", "_ask_with_file_refs", "_ask_global",
   "ACTIVE_STORE_NAME"]

/-- The names the HTTP layer imports from the utilities module
(`from utils import ...` in the source). -/
def main_imports_from_utils : List String :=
  ["upload_document_to_knowledge_base", "list_knowledge_base_files",
   "delete_document_from_knowledge_base", "ask_question_to_knowledge_base",
   "save_conversation", "save_chat_turn", "delete_conversation_history",
   "history_collection"]

/-- An HTTP status is a client-error (4xx-equivalent) status. -/
def statusIs4xx (n : Nat) : Bool :=
  decide (400 ≤ n) && decide (n ≤ 499)

/-! Concrete sample collaborator states used by witnesses and counterexamples. -/

/-- Sample hosted environment: exactly one hosted file handle resolves and the
model answers a fixed string. -/
def sampleEnv : Env :=
  { storeName := "fileSearchStores/ragkb2026",
    modelId := "gemini-2.0-flash",
    filesGet := fun n =>
      if n = "files/abc123" then
        some { uri := "https://generativelanguage.googleapis.com/v1beta/files/abc123",
               mime_type := some "application/pdf" }
      else none,
    generate := fun _ => some "The total is 42." }

/-- An active record whose hosted handle re-fetches successfully. -/
def docReport : DocRow :=
  { _id := "aaaaaaaaaaaaaaaaaaaaaaaa", original_filename := some "report.pdf",
    display_name := some "report.pdf",
    gcp_link := some "https://storage.googleapis.com/bkt/kb/1_report.pdf",
    gemini_file_name := some "files/abc123", uploaded_at := some 100,
    status := some "active" }

/-- An active legacy record with a blob URL but no hosted file reference. -/
def docLegacy : DocRow :=
  { _id := "bbbbbbbbbbbbbbbbbbbbbbbb", original_filename := some "old.pdf",
    display_name := some "old.pdf",
    gcp_link := some "https://storage.googleapis.com/bkt/kb/2_old.pdf",
    gemini_file_name := none, uploaded_at := some 50, status := some "active" }

/-- An active record whose hosted handle can no longer be fetched. -/
def docExpired : DocRow :=
  { _id := "cccccccccccccccccccccccc", original_filename := some "expired.pdf",
    display_name := some "expired.pdf",
    gcp_link := some "https://storage.googleapis.com/bkt/kb/3_expired.pdf",
    gemini_file_name := some "files/gone", uploaded_at := some 70,
    status := some "active" }

/-- A catalog of three active records. -/
def sampleCatalog : List DocRow := [docReport, docLegacy, docExpired]

/-- An active record where every best-effort field is absent. -/
def legacyDoc : DocRow :=
  { _id := "eeeeeeeeeeeeeeeeeeeeeeee", original_filename := none,
    display_name := none, gcp_link := none, gemini_file_name := none,
    uploaded_at := none, status := some "active" }

/-- Sample ingest environment where every hosted step succeeds immediately. -/
def sampleUploadEnv : UploadEnv :=
  { now := 1000, blobUploadOk := true, filesUploadOk := true,
    geminiFileName := "files/new777", importRaises := false,
    opDoneAt := fun _ => true, newId := "dddddddddddddddddddddddd",
    bucketName := "bkt" }

/-- Sample ingest environment whose index-import operation never completes. -/
def timeoutUploadEnv : UploadEnv :=
  { now := 2000, blobUploadOk := true, filesUploadOk := true,
    geminiFileName := "files/slow42", importRaises := false,
    opDoneAt := fun _ => false, newId := "ffffffffffffffffffffffff",
    bucketName := "bkt" }

/-- Sample delete environment in which both best-effort external deletes fail. -/
def sampleDeleteEnv : DeleteEnv :=
  { bucketName := "bkt", geminiDeleteOk := false, gcsDeleteOk := false }

/-! Helper lemmas. -/

/-- Dropping the elements a `filterMap` skips does not change its result:
the per-element filtering of the attachment loop is individual. -/
theorem filterMap_eq_filterMap_filter {α β : Type} (f : α → Option β) (l : List α) :
    l.filterMap f = (l.filter (fun x => (f x).isSome)).filterMap f := by
  induction l with
  | nil => rfl
  | cons a t ih =>
    cases h : f a with
    | none => simp [List.filterMap_cons, List.filter_cons, h, ih]
    | some b => simp [List.filterMap_cons, List.filter_cons, h, ih]

/-- The poll loop can add at most 2 seconds per unit of fuel. -/
theorem poll_import_loop_le (fuel : Nat) :
    ∀ (f : Nat → Bool) (i w : Nat), poll_import_loop f i w fuel ≤ w + 2 * fuel := by
  induction fuel with
  | zero => intro f i w; simp [poll_import_loop]
  | succ k ih =>
    intro f i w
    unfold poll_import_loop
    cases hfi : f i with
    | true => simp [hfi]
    | false =>
      simp only [hfi, Bool.false_eq_true, if_false]
      by_cases h2 : 60 ≤ w + 2
      · simp only [h2, if_true]; omega
      · simp only [h2, if_false]
        have := ih f (i + 1) (w + 2)
        omega

/-- The poll loop preserves evenness of the waited counter. -/
theorem poll_import_loop_even (fuel : Nat) :
    ∀ (f : Nat → Bool) (i w : Nat), 2 ∣ w → 2 ∣ poll_import_loop f i w fuel := by
  induction fuel with
  | zero => intro f i w hw; simpa [poll_import_loop] using hw
  | succ k ih =>
    intro f i w hw
    unfold poll_import_loop
    cases hfi : f i with
    | true => simpa [hfi] using hw
    | false =>
      simp only [hfi, Bool.false_eq_true, if_false]
      by_cases h2 : 60 ≤ w + 2
      · simp only [h2, if_true]; omega
      · simp only [h2, if_false]
        exact ih f (i + 1) (w + 2) (by omega)

/-- The import poll waits at most 60 seconds. -/
theorem poll_import_le_sixty (f : Nat → Bool) : poll_import f ≤ 60 := by
  have := poll_import_loop_le 30 f 0 0
  simpa [poll_import] using this

/-- The import poll always waits an even number of seconds (2-second sleeps). -/
theorem poll_import_even (f : Nat → Bool) : 2 ∣ poll_import f :=
  poll_import_loop_even 30 f 0 0 ⟨0, rfl⟩

/-- After erasing the row a successful id-lookup found, no row with that id
remains findable, provided catalog ids are distinct. -/
theorem find_none_after_eraseP (st : List DocRow) (i : String) (d0 : DocRow)
    (hnd : (st.map (fun d => d._id)).Nodup)
    (hfind : st.find? (fun d => objIdMatches i d._id) = some d0) :
    (st.eraseP (fun x => x._id == d0._id)).find? (fun d => objIdMatches i d._id) = none := by
  induction st with
  | nil => simp at hfind
  | cons a t ih =>
    rw [List.map_cons, List.nodup_cons] at hnd
    cases ha : objIdMatches i a._id with
    | true =>
      rw [List.find?_cons] at hfind
      simp only [ha] at hfind
      have hd0 : a = d0 := by simpa using hfind
      subst hd0
      rw [List.eraseP_cons]
      simp only [beq_self_eq_true, cond_true]
      rw [List.find?_eq_none]
      intro x hx hpx
      have hix : pyLower i = x._id := by
        have : (pyLower i == x._id) = true := by simpa [objIdMatches] using hpx
        exact eq_of_beq this
      have hia : pyLower i = a._id := by
        have : (pyLower i == a._id) = true := by simpa [objIdMatches] using ha
        exact eq_of_beq this
      exact hnd.1 (hia ▸ hix ▸ List.mem_map_of_mem (fun d => d._id) hx)
    | false =>
      rw [List.find?_cons] at hfind
      simp only [ha] at hfind
      have hid0 : pyLower i = d0._id := by
        have := List.find?_some hfind
        have hb : (pyLower i == d0._id) = true := by simpa [objIdMatches] using this
        exact eq_of_beq hb
      have haneq : (a._id == d0._id) = false := by
        cases hc : (a._id == d0._id) with
        | false => rfl
        | true =>
          have hceq : a._id = d0._id := eq_of_beq hc
          have : objIdMatches i a._id = true := by
            simp [objIdMatches, hid0, hceq]
          rw [this] at ha
          cases ha
      rw [List.eraseP_cons]
      simp only [haneq, cond_false]
      rw [List.find?_cons]
      simp only [ha]
      exact ih hnd.2 hfind

/-- The modelled temperature is the rational value 0.3. -/
theorem tempPointThree_eq_three_tenths : tempPointThree = 3 / 10 := by
  rw [tempPointThree, Rat.mk'_eq_divInt, Rat.divInt_eq_div]
  norm_num

/-! Claim theorems. -/

/-- C1 (code bug): in a direct-reference ask where the hosted file handle of a
resolved record is successfully re-fetched, the file part is built, yet the
single generation request sent to the hosted model does not contain it: its
contents are only the question text (the temperature-0.3 / 1500-token / store
tool configuration does hold).  The source builds `file_parts` but assigns
`contents = question`, the line attaching the parts being commented out, so
the re-fetched handles are never attached as content parts. -/
theorem c1_direct_ask_drops_fetched_file_parts :
    fileParts sampleEnv [docReport] =
      [ContentPart.fileData
        "https://generativelanguage.googleapis.com/v1beta/files/abc123"
        "application/pdf"] ∧
    (ask_with_file_refs sampleEnv "what is the total?" [docReport]).requests =
      [{ model := "gemini-2.0-flash",
         contents := [ContentPart.text "what is the total?"],
         config := { temperature := tempPointThree, max_output_tokens := 1500,
                     file_search_store_names := ["fileSearchStores/ragkb2026"] } }] := by
  decide

/-- C2 counterexample: with `file_ids = "all"` and a simultaneously-supplied
`file_urls`, the urls win (the url case precedes the global case in the
resolver): on a catalog of three active records where the url-matched record
has no hosted file reference, the call answers with the fixed degradation
string and issues zero generation requests — not global grounding — while
still reporting `selected_documents_count = 3`. -/
theorem c2_urls_override_all_counterexample :
    kb_ask sampleEnv sampleCatalog "summarize" (some "all")
        (some "https://storage.googleapis.com/bkt/kb/2_old.pdf") =
      { response := .ok "summarize" noFilePartsMsg 3, requests := [],
        catalog := sampleCatalog, blobWrites := [], historyWrites := [] } := by
  decide

/-- C2 (amended): when `file_ids` trims case-insensitively to "all" and no
`file_urls` field is supplied, the answer is produced by global grounding (the
single request of `_ask_global` against the full index with no per-file
filter) and `selected_documents_count` equals the number of active catalog
records.  The unamended claim fails because a simultaneously-supplied
`file_urls` takes priority over the "all" sentinel (priority 2 over 3). -/
theorem c2_all_scope_global_when_no_urls (env : Env) (st : List DocRow) (q s : String)
    (hq : ¬ pyStrip q = "") (hs : s ≠ "") (hall : pyLower (pyStrip s) = "all") :
    kb_ask env st q (some s) none =
      { response := .ok q (ask_global env q).answer
          ((list_knowledge_base_files st).length),
        requests := (ask_global env q).requests, catalog := st,
        blobWrites := [], historyWrites := [] } := by
  simp [kb_ask, ask_question_to_knowledge_base, hq, hs, hall]

/-- C2 witness: a concrete "all" ask with no urls on the three-record catalog. -/
theorem c2_all_scope_global_when_no_urls_witness :
    kb_ask sampleEnv sampleCatalog "summarize all docs" (some " ALL ") none =
      { response := .ok "summarize all docs"
          (ask_global sampleEnv "summarize all docs").answer
          ((list_knowledge_base_files sampleCatalog).length),
        requests := (ask_global sampleEnv "summarize all docs").requests,
        catalog := sampleCatalog, blobWrites := [], historyWrites := [] } :=
  c2_all_scope_global_when_no_urls sampleEnv sampleCatalog "summarize all docs" " ALL "
    (by decide) (by decide) (by decide)

/-- C3 (code bug): an upload-and-ask call with a non-empty question whose
ingest succeeds does not answer with count 1 — the endpoint passes the keyword
argument `source` to the resolver, whose signature
`(question, file_ids, file_urls, search_all)` does not accept it, so the call
raises `TypeError` and the endpoint returns a 500 after the upload: the new
catalog row exists, but no generation request was issued and no answer is
returned. -/
theorem c3_upload_and_ask_fails_after_upload :
    kwargs_accepted ask_question_param_names upload_and_ask_call_kwargs = false ∧
    upload_and_ask sampleEnv sampleUploadEnv [] "what is this?" "a.pdf" =
      { response := .httpError 500
          "RAG query failed: ask_question_to_knowledge_base() got an unexpected keyword argument \x27source\x27",
        requests := [],
        catalog := [{ _id := "dddddddddddddddddddddddd",
                      original_filename := some "a.pdf",
                      display_name := some "a.pdf",
                      gcp_link := some "https://storage.googleapis.com/bkt/kb/1000_a.pdf",
                      gemini_file_name := some "files/new777",
                      uploaded_at := some 1000,
                      status := some "active" }],
        blobWrites := ["kb/1000_a.pdf"],
        historyWrites := [] } := by
  decide

/-- C4 (code bug): no ask that returns an answer persists any history entry.
The ask endpoints write no history entry on any path, and the history
recorder the HTTP layer tries to import from the utilities module
(`save_conversation`, `history_collection`) is not defined there at all, so
the import itself fails.  This contradicts the claim that every answered ask
is persisted by the History Recorder. -/
theorem c4_ask_flow_persists_no_history :
    (∀ (env : Env) (st : List DocRow) (q : String) (ids urls : Option String),
      (kb_ask env st q ids urls).historyWrites = []) ∧
    (∀ (env : Env) (uenv : UploadEnv) (st : List DocRow) (q fn : String),
      (upload_and_ask env uenv st q fn).historyWrites = []) ∧
    ("save_conversation" ∈ main_imports_from_utils ∧
      "save_conversation" ∉ utils_defined_names) ∧
    ("history_collection" ∈ main_imports_from_utils ∧
      "history_collection" ∉ utils_defined_names) := by
  refine ⟨?_, ?_, by decide, by decide⟩
  · intro env st q ids urls
    simp only [kb_ask]
    split
    · rfl
    · split <;> rfl
  · intro env uenv st q fn
    simp only [upload_and_ask]
    split
    · rfl
    · split
      · rfl
      · split
        · split <;> rfl
        · rfl

/-- C5 counterexample: the save-chat-turn endpoint also accepts a question,
yet an empty question is not rejected — the turn is persisted to the chat log
and a success response is returned, so the claim fails for that endpoint. -/
theorem c5_save_chat_turn_accepts_empty_question_counterexample :
    save_chat_turn_endpoint [] "" "the answer" "pdf" none none 5 "turn1" =
      (.saved "turn1",
       [{ id := "turn1", question := "", answer := "the answer", source := "pdf",
          conversation_id := none, chat_id := none, asked_at := 5 }]) := by
  decide

/-- C5 (amended): for the kb-ask and upload-and-ask endpoints, an empty or
whitespace-only question yields the 400 validation failure with zero hosted
requests, zero blob writes and an unchanged catalog; the save-chat-turn
endpoint, which also accepts a question, performs no such validation and
persists the turn. -/
theorem c5_empty_question_rejected_no_side_effects :
    ∀ (env : Env) (uenv : UploadEnv) (st : List DocRow) (q : String)
      (ids urls : Option String) (fn : String), pyStrip q = "" →
    kb_ask env st q ids urls =
      { response := .httpError 400 "Question cannot be empty", requests := [],
        catalog := st, blobWrites := [], historyWrites := [] } ∧
    upload_and_ask env uenv st q fn =
      { response := .httpError 400 "Question cannot be empty", requests := [],
        catalog := st, blobWrites := [], historyWrites := [] } := by
  intro env uenv st q ids urls fn h
  constructor
  · unfold kb_ask
    rw [if_pos h]
  · unfold upload_and_ask
    rw [if_pos h]

/-- C5 witness: a whitespace-only question on the sample state. -/
theorem c5_empty_question_rejected_no_side_effects_witness :
    kb_ask sampleEnv sampleCatalog "   " none none =
      { response := .httpError 400 "Question cannot be empty", requests := [],
        catalog := sampleCatalog, blobWrites := [], historyWrites := [] } ∧
    upload_and_ask sampleEnv sampleUploadEnv sampleCatalog "   " "a.pdf" =
      { response := .httpError 400 "Question cannot be empty", requests := [],
        catalog := sampleCatalog, blobWrites := [], historyWrites := [] } :=
  c5_empty_question_rejected_no_side_effects sampleEnv sampleUploadEnv
    sampleCatalog "   " none none "a.pdf" (by decide)

/-- C6 counterexample: a malformed id in the explicit id list is surfaced to
the caller as a 500 ("RAG query failed"), not a 4xx-equivalent — the endpoint
catches every exception, including the local `ValueError`, and maps it to a
500 — though indeed no hosted generation call was made. -/
theorem c6_malformed_id_surfaces_500_counterexample :
    kb_ask sampleEnv sampleCatalog "what" (some "not-a-valid-id") none =
      { response := .httpError 500 "RAG query failed: Invalid file_id format",
        requests := [], catalog := sampleCatalog, blobWrites := [],
        historyWrites := [] } ∧
    statusIs4xx 500 = false := by
  decide

/-- C6 (amended): an ask whose explicit id list contains a malformed
document-id string fails with the local validation failure (the `ValueError`
raised before any hosted call, so zero generation requests are issued),
surfaced to the caller as a 500-equivalent "RAG query failed" error rather
than a 4xx. -/
theorem c6_malformed_id_local_failure_before_hosted_call
    (env : Env) (st : List DocRow) (q s : String)
    (hq : ¬ pyStrip q = "") (hs : s ≠ "") (hall : ¬ pyLower (pyStrip s) = "all")
    (hbad : (splitParam s).all isValidObjectId = false) :
    kb_ask env st q (some s) none =
      { response := .httpError 500 "RAG query failed: Invalid file_id format",
        requests := [], catalog := st, blobWrites := [], historyWrites := [] } := by
  rcases hsp : splitParam s with _ | ⟨a, l⟩
  · rw [hsp] at hbad
    simp at hbad
  · have hallb : (pyLower (pyStrip s) == "all") = false := by
      simp [hall]
    have hbad2 : ((a :: l).all isValidObjectId) = false := hsp ▸ hbad
    have hask : ask_question_to_knowledge_base env st q (some (a :: l)) none false
        = (.err .invalidFileId, []) := by
      simp only [ask_question_to_knowledge_base]
      rw [if_neg (by simp [hbad2])]
    simp [kb_ask, hq, hs, hsp, hallb, hask]

/-- C6 witness: a concrete malformed id. -/
theorem c6_malformed_id_local_failure_before_hosted_call_witness :
    kb_ask sampleEnv sampleCatalog "what is it" (some "zzz") none =
      { response := .httpError 500 "RAG query failed: Invalid file_id format",
        requests := [], catalog := sampleCatalog, blobWrites := [],
        historyWrites := [] } :=
  c6_malformed_id_local_failure_before_hosted_call sampleEnv sampleCatalog
    "what is it" "zzz" (by decide) (by decide) (by decide) (by decide)

/-- C7: in a direct-reference ask, records that yield no attachment (missing
`search_file_ref`, or a hosted handle that cannot be fetched) are skipped
individually — removing them from the resolved list does not change the
gathered file parts — and when zero file parts remain the function returns the
fixed explanatory answer string with no hosted generation call and no
exception (the model is total). -/
theorem c7_unfetchable_records_skipped_zero_parts_degrades
    (env : Env) (q : String) (docs : List DocRow) :
    fileParts env docs =
      fileParts env (docs.filter (fun d => (filePartForDoc env d).isSome)) ∧
    (fileParts env docs = [] →
      ask_with_file_refs env q docs = { answer := noFilePartsMsg, requests := [] }) := by
  constructor
  · exact filterMap_eq_filterMap_filter (filePartForDoc env) docs
  · intro h
    simp [ask_with_file_refs, h]

/-- C7 witness: a no-reference record plus an expired-handle record degrade to
the fixed string with zero hosted calls. -/
theorem c7_unfetchable_records_skipped_zero_parts_degrades_witness :
    ask_with_file_refs sampleEnv "what" [docLegacy, docExpired] =
      { answer := noFilePartsMsg, requests := [] } :=
  (c7_unfetchable_records_skipped_zero_parts_degrades sampleEnv "what"
    [docLegacy, docExpired]).2 (by decide)

/-- C8: delete resolves the input as a store-native id when well-formed and by
original filename otherwise (`findDeleteTarget`); an unresolved input returns
false and changes nothing; a resolved record reports success, removes exactly
that catalog row, attempts the hosted-file delete exactly when the record
carries the key, the outcome is identical whether the two best-effort external
deletes succeed or fail (they are caught and only logged), and — with distinct
ids — deleting the same well-formed id twice returns true then false. -/
theorem c8_delete_best_effort_resolution_and_twice
    (env env2 : DeleteEnv) (st : List DocRow) (input : String)
    (hb : env.bucketName = env2.bucketName)
    (hnd : (st.map (fun d => d._id)).Nodup) :
    (delete_document_from_knowledge_base env2 st input =
      delete_document_from_knowledge_base env st input) ∧
    (findDeleteTarget st input = none →
      delete_document_from_knowledge_base env st input =
        { success := false, catalog := st, geminiDeletesAttempted := [],
          blobDeletesAttempted := [] }) ∧
    (∀ d, findDeleteTarget st input = some d →
      (delete_document_from_knowledge_base env st input).success = true ∧
      (delete_document_from_knowledge_base env st input).catalog =
        st.eraseP (fun x => x._id == d._id) ∧
      (delete_document_from_knowledge_base env st input).geminiDeletesAttempted =
        (match d.gemini_file_name with | some nm => [nm] | none => []) ∧
      (isValidObjectId input = true →
        (delete_document_from_knowledge_base env
          (delete_document_from_knowledge_base env st input).catalog
          input).success = false)) := by
  refine ⟨?_, ?_, ?_⟩
  · cases h : findDeleteTarget st input <;>
      simp [delete_document_from_knowledge_base, h, hb]
  · intro h
    simp [delete_document_from_knowledge_base, h]
  · intro d hd
    refine ⟨?_, ?_, ?_, ?_⟩
    · simp [delete_document_from_knowledge_base, hd]
    · simp [delete_document_from_knowledge_base, hd]
    · simp [delete_document_from_knowledge_base, hd]
    · intro hvalid
      have hfind : st.find? (fun x => objIdMatches input x._id) = some d := by
        simpa [findDeleteTarget, hvalid] using hd
      have hnone := find_none_after_eraseP st input d hnd hfind
      simp [delete_document_from_knowledge_base, findDeleteTarget, hvalid,
        hfind, hnone]

/-- C8 witness: deleting a concrete id from the sample catalog succeeds once
and then reports not-found, with the failing external deletes not affecting
the outcome. -/
theorem c8_delete_best_effort_resolution_and_twice_witness :
    (delete_document_from_knowledge_base sampleDeleteEnv sampleCatalog
      "aaaaaaaaaaaaaaaaaaaaaaaa").success = true ∧
    (delete_document_from_knowledge_base sampleDeleteEnv
      (delete_document_from_knowledge_base sampleDeleteEnv sampleCatalog
        "aaaaaaaaaaaaaaaaaaaaaaaa").catalog
      "aaaaaaaaaaaaaaaaaaaaaaaa").success = false := by
  have h := (c8_delete_best_effort_resolution_and_twice sampleDeleteEnv
    sampleDeleteEnv sampleCatalog "aaaaaaaaaaaaaaaaaaaaaaaa" rfl
    (by decide)).2.2 docReport (by decide)
  exact ⟨h.1, h.2.2.2 (by decide)⟩

/-- C9: the ingest import-wait is bounded — the poll sleeps in 2-second steps
(the waited total is always even) and never exceeds 60 seconds, whatever the
hosted operation reports — and a timeout or an import failure is non-fatal:
whenever the blob and hosted-file uploads succeed, the pipeline still appends
the catalog row and returns the assigned id. -/
theorem c9_import_poll_bounded_and_nonfatal
    (env : UploadEnv) (st : List DocRow) (ofn : String) (dn : Option String)
    (hblob : env.blobUploadOk = true) (hfile : env.filesUploadOk = true) :
    poll_import env.opDoneAt ≤ 60 ∧ 2 ∣ poll_import env.opDoneAt ∧
    (upload_document_to_knowledge_base env st ofn dn).ok = true ∧
    (upload_document_to_knowledge_base env st ofn dn).result_id = env.newId ∧
    (upload_document_to_knowledge_base env st ofn dn).catalog =
      st ++ [{ _id := env.newId, original_filename := some ofn,
               display_name := some (displayNameOrDefault dn ofn),
               gcp_link := some ("https://storage.googleapis.com/" ++
                 env.bucketName ++ "/" ++
                 ("kb/" ++ toString env.now ++ "_" ++ ofn)),
               gemini_file_name := some env.geminiFileName,
               uploaded_at := some env.now, status := some "active" }] := by
  refine ⟨poll_import_le_sixty env.opDoneAt, poll_import_even env.opDoneAt,
    ?_, ?_, ?_⟩
  · simp [upload_document_to_knowledge_base, hblob, hfile]
  · simp [upload_document_to_knowledge_base, hblob, hfile]
  · simp [upload_document_to_knowledge_base, hblob, hfile]

/-- C9 witness: an import operation that never completes still yields a
successful ingest, and its poll waits the full 60 seconds and no more. -/
theorem c9_import_poll_bounded_and_nonfatal_witness :
    poll_import timeoutUploadEnv.opDoneAt ≤ 60 ∧
    poll_import timeoutUploadEnv.opDoneAt = 60 ∧
    (upload_document_to_knowledge_base timeoutUploadEnv [] "b.pdf" none).ok = true ∧
    (upload_document_to_knowledge_base timeoutUploadEnv [] "b.pdf" none).result_id =
      "ffffffffffffffffffffffff" := by
  have h := c9_import_poll_bounded_and_nonfatal timeoutUploadEnv [] "b.pdf" none rfl rfl
  exact ⟨h.1, by decide, h.2.2.1, h.2.2.2.1⟩

/-- C10: each active catalog row appears in the listing after the fix-up pass:
a missing or empty stored `original_filename` is replaced by "unknown", a
non-empty one passes through, a missing (or empty) `display_name` defaults to
the fixed `original_filename`, a missing `uploaded_at` defaults to 0, and an
absent blob URL is returned as the null field of a total function rather than
failing the listing. -/
theorem c10_listing_defaults (st : List DocRow) (d : DocRow)
    (hmem : d ∈ st) (hact : d.status = some "active") :
    format_file (listedOf d) ∈ list_files st ∧
    ((d.original_filename = none ∨ d.original_filename = some "") →
      (format_file (listedOf d)).original_filename = "unknown") ∧
    (∀ s, d.original_filename = some s → ¬ s = "" →
      (format_file (listedOf d)).original_filename = s) ∧
    ((d.display_name = none ∨ d.display_name = some "") →
      (format_file (listedOf d)).display_name =
        (format_file (listedOf d)).original_filename) ∧
    (d.uploaded_at = none → (format_file (listedOf d)).uploaded_at = 0) ∧
    (format_file (listedOf d)).gcp_link = d.gcp_link := by
  refine ⟨?_, ?_, ?_, ?_, ?_, ?_⟩
  · unfold list_files list_knowledge_base_files
    apply List.mem_map_of_mem
    apply List.mem_map_of_mem
    rw [List.mem_filter]
    exact ⟨hmem, by simp [hact]⟩
  · intro h
    rcases h with h | h <;> simp [format_file, listedOf, h]
  · intro s hs hne
    simp [format_file, listedOf, hs, hne]
  · intro h
    rcases h with h | h <;> simp [format_file, listedOf, h]
  · intro h
    simp [format_file, listedOf, h]
  · simp [format_file, listedOf]

/-- C10 witness: a fully degenerate legacy record is listed with all defaults
applied. -/
theorem c10_listing_defaults_witness :
    format_file (listedOf legacyDoc) ∈ list_files [legacyDoc] ∧
    (format_file (listedOf legacyDoc)).original_filename = "unknown" ∧
    (format_file (listedOf legacyDoc)).display_name = "unknown" ∧
    (format_file (listedOf legacyDoc)).uploaded_at = 0 ∧
    (format_file (listedOf legacyDoc)).gcp_link = none := by
  have h := c10_listing_defaults [legacyDoc] legacyDoc (by decide) (by decide)
  refine ⟨h.1, h.2.1 (Or.inl rfl), ?_, h.2.2.2.2.1 rfl, h.2.2.2.2.2⟩
  exact (h.2.2.2.1 (Or.inl rfl)).trans (h.2.1 (Or.inl rfl))
